import Mathlib

/-!
Shallow embedding of the session / multi-factor authentication core of the
InventoryMS front end, together with proofs of the frozen claims.

Source files embedded (paths relative to the repository root):
- `src/hooks/use-api.ts` : the transport client (`apiRequest`).
- `src/services/authService.ts` (the variant with 2FA support) : the
  primary-credential, second-factor and session operations, and the
  `localStorage` identity-marker cache.
- `src/contexts/AuthContext.tsx` : the session store (`refreshSession`,
  the mount-time `initAuth`).
- `src/pages/Auth.tsx` : the password-policy gate and the sign-in /
  sign-up submission handlers.
- `src/pages/TwoFactorAuth.tsx` : the second-factor challenge handler.
- `src/pages/OAuthCallback.tsx` : OAuth callback reconciliation.

Modelling conventions:
- The network is abstracted: each operation takes the outcome of its
  single underlying HTTP exchange as an explicit argument (a
  `FetchOutcome` for the transport layer, an already-normalized
  `ApiResp` for the service layer, since the service code only ever
  destructures the `\x7b data, error \x7d` pair `apiRequest` returns).
- `localStorage` is modelled by its only auth-relevant key: the value
  stored under `email`, i.e. `Store := Option String`.
- JavaScript truthiness of strings (empty string is falsy) is modelled
  explicitly where the source relies on it (`jsOr`, `jsTruthy`,
  `getStoredUserEmail`).
- Page handlers additionally return the list of network calls they
  issue (`NetCall`), read off the source branch by branch, so that
  claims of the form "no network call is made" are statable.
-/

namespace InventoryMS

/-! ### Transport client (`src/hooks/use-api.ts`) -/

/-- A structured (JSON object) error body, as inspected by `apiRequest`:
the four candidate message fields read by the
`responseData?.title || responseData?.detail || responseData?.message || responseData?.error`
chain, plus the per-field validation-errors map `responseData?.errors`.
A field that is absent or the empty string behaves identically under the
JavaScript `||` chain, so absent fields are represented by `""` and an
absent `errors` map by `[]`. -/
structure ProblemBody where
  title : String
  detail : String
  message : String
  error : String
  errors : List (String × List String)
deriving Repr, DecidableEq

/-- The parsed response body: a JSON object (`response.json()` path) or a
plain string (`response.text()` path). -/
inductive ResponseBody
  | obj (b : ProblemBody)
  | str (s : String)
deriving Repr, DecidableEq

/-- The `ApiError` interface of `use-api.ts`:
`\x7b message: string; status?: number; errors?: Record<string, string[]> \x7d`. -/
structure ApiError where
  message : String
  status : Option Nat
  errors : Option (List (String × List String))
deriving Repr, DecidableEq

/-- The uniform `\x7b data, error \x7d` result shape produced by `apiRequest`
and consumed by every service operation. -/
structure ApiResp (α : Type) where
  data : Option α
  error : Option ApiError
deriving Repr, DecidableEq

/-- Outcome of the underlying `fetch` exchange inside `apiRequest`:
either the `try` block threw (`isError`: the thrown value was an `Error`
instance; `isAbort`: its `name` was `AbortError`, i.e. the timeout
fired; `message`: its message), or a response arrived with the given
`response.ok` flag, numeric status and parsed body. -/
inductive FetchOutcome
  | thrown (isError isAbort : Bool) (message : String)
  | response (ok : Bool) (status : Nat) (body : ResponseBody)
deriving Repr, DecidableEq

/-- JavaScript `a || b` on strings: `a` when truthy (non-empty), else `b`. -/
def jsOr (a b : String) : String :=
  if a = "" then b else a

/-- `apiRequest` from `use-api.ts` (lines 185-284), as a function of the
fetch outcome. It is total (the TypeScript function catches every
exception and returns a value on every path): a thrown `AbortError`
becomes a status-0 `"Request timeout"` error, any other throw a status-0
network error; a non-2xx response is normalized via the
`title || detail || message || error` priority chain (a raw string body is
used verbatim) with the `errors` map attached only when non-empty; a 2xx
response returns its body as `data`. -/
def apiRequest : FetchOutcome → ApiResp ResponseBody
  | .response true _ body => { data := some body, error := none }
  | .response false status body =>
      let errorMessage :=
        match body with
        | .obj b => jsOr b.title (jsOr b.detail (jsOr b.message (jsOr b.error "An error occurred")))
        | .str s => s
      let errorDetails :=
        match body with
        | .obj b => b.errors
        | .str _ => []
      { data := none
        error := some
          { message := errorMessage
            status := some status
            errors := if errorDetails.length > 0 then some errorDetails else none } }
  | .thrown isError isAbort message =>
      { data := none
        error := some
          { message :=
              if isError && isAbort then "Request timeout"
              else if isError then message else "Network error occurred"
            status := some 0
            errors := none } }

/-! ### `JSON.stringify` on strings -/

/-- Lower-case hexadecimal digit, for the `\uXXXX` escapes of
`JSON.stringify`. -/
def hexDigit (n : Nat) : Char :=
  if n < 10 then Char.ofNat (48 + n) else Char.ofNat (87 + n)

/-- The escape `JSON.stringify` applies to one character of a string:
quote and backslash are backslash-escaped, the usual control-character
short escapes apply, the remaining control characters below U+0020 get a
`\u00XX` escape, and every other character is emitted unchanged. -/
def jsonEscapeChar (c : Char) : List Char :=
  if c = '"' then ['\\', '"']
  else if c = '\\' then ['\\', '\\']
  else if c = '\x08' then ['\\', 'b']
  else if c = '\x0c' then ['\\', 'f']
  else if c = '\n' then ['\\', 'n']
  else if c = '\r' then ['\\', 'r']
  else if c = '\t' then ['\\', 't']
  else if c.toNat < 32 then
    ['\\', 'u', '0', '0', hexDigit (c.toNat / 16), hexDigit (c.toNat % 16)]
  else [c]

/-- `JSON.stringify` applied to a string value: the escaped characters
wrapped in double quotes. This is what the auth service stores under the
`email` key in `localStorage`. -/
def jsonStringifyString (s : String) : String :=
  ⟨'"' :: (s.data.flatMap jsonEscapeChar ++ ['"'])⟩

/-! ### The identity-marker cache -/

/-- The `localStorage` state restricted to the one key the auth code
uses: the value stored under `email`, or `none` when the key is absent. -/
abbrev Store := Option String

/-- The `Session` interface of `authService.ts`:
`\x7b email: string; emailConfirmed?: boolean; twoFactorEnabled?: boolean \x7d`. -/
structure Session where
  email : String
  emailConfirmed : Option Bool
  twoFactorEnabled : Option Bool
deriving Repr, DecidableEq

/-- `getStoredUserEmail` from `authService.ts` (lines 237-244):
`localStorage.getItem('email')` followed by `emailStr ? emailStr : null`,
so a stored empty string is reported as `null` (JavaScript truthiness). -/
def getStoredUserEmail (store : Store) : Option String :=
  match store with
  | some emailStr => if emailStr = "" then none else some emailStr
  | none => none

/-- `isAuthenticated` from `authService.ts` (lines 249-252):
`!!(getStoredUserEmail())`. -/
def isAuthenticated (store : Store) : Bool :=
  (getStoredUserEmail store).isSome

/-! ### Primary-credential and second-factor operations
(`src/services/authService.ts`)

Each operation takes the normalized transport result `r` of its single
`apiRequest` call and the current store, and returns its result together
with the store it leaves behind. -/

/-- `signUp(name, email, password)` (lines 42-63): on transport error the
error is returned and the store untouched; on success
`localStorage.setItem('email', JSON.stringify(email))`. -/
def signUp (name email password : String) (r : ApiResp Session) (store : Store) :
    ApiResp Session × Store :=
  match r.error with
  | some e => ({ data := none, error := some e }, store)
  | none => ({ data := r.data, error := none }, some (jsonStringifyString email))

/-- `signIn(email, password)` (lines 68-95): a 401 error whose message is
not the literal `"RequiresTwoFactor"` has its message overwritten with the
generic `"Email or password is invalid."`; every other error is returned
unchanged; on success the stringified email is stored. -/
def signIn (email password : String) (r : ApiResp Session) (store : Store) :
    ApiResp Session × Store :=
  match r.error with
  | some e =>
      if e.status = some 401 ∧ e.message ≠ "RequiresTwoFactor" then
        ({ data := none, error := some { e with message := "Email or password is invalid." } },
          store)
      else
        ({ data := none, error := some e }, store)
  | none => ({ data := r.data, error := none }, some (jsonStringifyString email))

/-- `verify2FALogin(email, password, twoFactorCode)` (lines 100-125):
errors pass through unchanged; success stores the stringified email. -/
def verify2FALogin (email password twoFactorCode : String) (r : ApiResp Session)
    (store : Store) : ApiResp Session × Store :=
  match r.error with
  | some e => ({ data := none, error := some e }, store)
  | none => ({ data := r.data, error := none }, some (jsonStringifyString email))

/-- `verify2FARecoveryCode(email, password, twoFactorRecoveryCode)`
(lines 130-155): identical response handling to `verify2FALogin`. -/
def verify2FARecoveryCode (email password twoFactorRecoveryCode : String)
    (r : ApiResp Session) (store : Store) : ApiResp Session × Store :=
  match r.error with
  | some e => ({ data := none, error := some e }, store)
  | none => ({ data := r.data, error := none }, some (jsonStringifyString email))

/-- `signOut()` (lines 160-168): `localStorage.removeItem('email')` runs
unconditionally, after the logout request but before the return, so the
marker is gone whatever the transport result was. -/
def signOut (r : ApiResp Unit) (store : Store) : Option ApiError × Store :=
  (r.error, none)

/-- `signInWithGoogle()` (lines 173-186): only initiates a redirect; the
store is untouched. `thrown` models an exception raised while initiating
the redirect, the only failure the call itself can report. -/
def signInWithGoogle (thrown : Option String) (store : Store) :
    ApiResp Session × Store :=
  match thrown with
  | none => ({ data := none, error := none }, store)
  | some m => ({ data := none, error := some { message := m, status := none, errors := none } },
      store)

/-- `getSession()` (lines 191-207), the session refresh: on error the
marker is removed; on success with data the marker is overwritten with
the stringified response email; on success without data the store is
untouched. -/
def getSession (r : ApiResp Session) (store : Store) : ApiResp Session × Store :=
  match r.error with
  | some e => ({ data := none, error := some e }, none)
  | none =>
      match r.data with
      | some data => ({ data := some data, error := none }, some (jsonStringifyString data.email))
      | none => ({ data := none, error := none }, store)

/-- `resendConfirmationEmail(email)` (lines 257-266): store untouched. -/
def resendConfirmationEmail (email : String) (r : ApiResp Unit) (store : Store) :
    Option ApiError × Store :=
  (r.error, store)

/-- `confirmEmail(userId, code, changedEmail?)` (lines 271-286): store
untouched. -/
def confirmEmail (userId code : String) (changedEmail : Option String)
    (r : ApiResp Unit) (store : Store) : Option ApiError × Store :=
  (r.error, store)

/-- `forgotPassword(email)` (lines 291-300): store untouched. -/
def forgotPassword (email : String) (r : ApiResp Unit) (store : Store) :
    Option ApiError × Store :=
  (r.error, store)

/-- `resetPassword(email, resetCode, newPassword)` (lines 305-320): store
untouched. -/
def resetPassword (email resetCode newPassword : String) (r : ApiResp Unit)
    (store : Store) : Option ApiError × Store :=
  (r.error, store)

/-- The payload of `getUserInfo` (lines 325-336). -/
structure UserInfo where
  email : String
  isEmailConfirmed : Bool
deriving Repr, DecidableEq

/-- `getUserInfo()` (lines 325-336): store untouched. -/
def getUserInfo (r : ApiResp UserInfo) (store : Store) : ApiResp UserInfo × Store :=
  ({ data := r.data, error := r.error }, store)

/-- `updateEmail(newEmail, password)` (lines 341-354): store untouched. -/
def updateEmail (newEmail password : String) (r : ApiResp Unit) (store : Store) :
    Option ApiError × Store :=
  (r.error, store)

/-- `changePassword(oldPassword, newPassword)` (lines 359-372): store
untouched. -/
def changePassword (oldPassword newPassword : String) (r : ApiResp Unit)
    (store : Store) : Option ApiError × Store :=
  (r.error, store)

/-- The `TwoFactorResponse` interface of `authService.ts` (all fields
optional). -/
structure TwoFactorResponse where
  sharedKey : Option String
  recoveryCodesLeft : Option Nat
  recoveryCodes : Option (List String)
  isTwoFactorEnabled : Option Bool
  isMachineRemembered : Option Bool
deriving Repr, DecidableEq

/-- `get2FAInfo()` (lines 377-390): store untouched. -/
def get2FAInfo (r : ApiResp TwoFactorResponse) (store : Store) :
    ApiResp TwoFactorResponse × Store :=
  ({ data := r.data, error := r.error }, store)

/-- `enable2FA(twoFactorCode?, resetSharedKey?)` (lines 397-425): the
arguments only shape the request body (abstracted into `r`); the store is
untouched. -/
def enable2FA (twoFactorCode : Option String) (resetSharedKey : Bool)
    (r : ApiResp TwoFactorResponse) (store : Store) :
    ApiResp TwoFactorResponse × Store :=
  ({ data := r.data, error := r.error }, store)

/-- `disable2FA()` (lines 430-445): store untouched. -/
def disable2FA (r : ApiResp TwoFactorResponse) (store : Store) :
    ApiResp TwoFactorResponse × Store :=
  ({ data := r.data, error := r.error }, store)

/-- `reset2FARecoveryCodes()` (lines 450-465): store untouched. -/
def reset2FARecoveryCodes (r : ApiResp TwoFactorResponse) (store : Store) :
    ApiResp TwoFactorResponse × Store :=
  ({ data := r.data, error := r.error }, store)

/-- `forget2FAMachine()` (lines 470-484): store untouched. -/
def forget2FAMachine (r : ApiResp Unit) (store : Store) : Option ApiError × Store :=
  (r.error, store)

/-- One invocation of an exported `authService.ts` operation, carrying
its arguments and the outcome of its underlying network exchange. Used to
quantify over all auth operations at once. -/
inductive AuthOp
  | opSignUp (name email password : String) (r : ApiResp Session)
  | opSignIn (email password : String) (r : ApiResp Session)
  | opVerify2FALogin (email password code : String) (r : ApiResp Session)
  | opVerify2FARecoveryCode (email password code : String) (r : ApiResp Session)
  | opSignOut (r : ApiResp Unit)
  | opSignInWithGoogle (thrown : Option String)
  | opGetSession (r : ApiResp Session)
  | opResendConfirmationEmail (email : String) (r : ApiResp Unit)
  | opConfirmEmail (userId code : String) (changedEmail : Option String) (r : ApiResp Unit)
  | opForgotPassword (email : String) (r : ApiResp Unit)
  | opResetPassword (email resetCode newPassword : String) (r : ApiResp Unit)
  | opGetUserInfo (r : ApiResp UserInfo)
  | opUpdateEmail (newEmail password : String) (r : ApiResp Unit)
  | opChangePassword (oldPassword newPassword : String) (r : ApiResp Unit)
  | opGet2FAInfo (r : ApiResp TwoFactorResponse)
  | opEnable2FA (twoFactorCode : Option String) (resetSharedKey : Bool)
      (r : ApiResp TwoFactorResponse)
  | opDisable2FA (r : ApiResp TwoFactorResponse)
  | opReset2FARecoveryCodes (r : ApiResp TwoFactorResponse)
  | opForget2FAMachine (r : ApiResp Unit)

/-- The store left behind by one auth operation, dispatching to the
per-operation definitions above. -/
def applyOpStore (op : AuthOp) (store : Store) : Store :=
  match op with
  | .opSignUp name email password r => (signUp name email password r store).2
  | .opSignIn email password r => (signIn email password r store).2
  | .opVerify2FALogin email password code r => (verify2FALogin email password code r store).2
  | .opVerify2FARecoveryCode email password code r =>
      (verify2FARecoveryCode email password code r store).2
  | .opSignOut r => (signOut r store).2
  | .opSignInWithGoogle thrown => (signInWithGoogle thrown store).2
  | .opGetSession r => (getSession r store).2
  | .opResendConfirmationEmail email r => (resendConfirmationEmail email r store).2
  | .opConfirmEmail userId code changedEmail r =>
      (confirmEmail userId code changedEmail r store).2
  | .opForgotPassword email r => (forgotPassword email r store).2
  | .opResetPassword email resetCode newPassword r =>
      (resetPassword email resetCode newPassword r store).2
  | .opGetUserInfo r => (getUserInfo r store).2
  | .opUpdateEmail newEmail password r => (updateEmail newEmail password r store).2
  | .opChangePassword oldPassword newPassword r =>
      (changePassword oldPassword newPassword r store).2
  | .opGet2FAInfo r => (get2FAInfo r store).2
  | .opEnable2FA twoFactorCode resetSharedKey r =>
      (enable2FA twoFactorCode resetSharedKey r store).2
  | .opDisable2FA r => (disable2FA r store).2
  | .opReset2FARecoveryCodes r => (reset2FARecoveryCodes r store).2
  | .opForget2FAMachine r => (forget2FAMachine r store).2

/-! ### Session store (`src/contexts/AuthContext.tsx`) -/

/-- The React state held by `AuthProvider`: `user` (modelled by the email
string the code puts into the cast `\x7b email \x7d` object), `session`,
and the `loading` flag. -/
structure AuthState where
  user : Option String
  session : Option Session
  loading : Bool
deriving Repr, DecidableEq

/-- The state `AuthProvider` starts from: `useState(null)`,
`useState(null)`, `useState(true)`. -/
def initialAuthState : AuthState :=
  { user := none, session := none, loading := true }

/-- A network call a page handler can issue, identified by its endpoint. -/
inductive NetCall
  | register
  | login
  | logout
  | pingauth
  | manageInfo
deriving Repr, DecidableEq

/-- `refreshSession` from `AuthContext.tsx` (lines 31-46): one
`getSession()` call; on `error || !data` both `user` and `session` are
set to null, otherwise both are set from the response. The `catch` branch
is unreachable in the model because `getSession` is total, which mirrors
the TypeScript `getSession` resolving (never rejecting) on every path. -/
def refreshSession (r : ApiResp Session) (store : Store) (st : AuthState) :
    AuthState × Store :=
  let res := (getSession r store).1
  let store1 := (getSession r store).2
  match res.error, res.data with
  | some _, _ => ({ st with user := none, session := none }, store1)
  | none, none => ({ st with user := none, session := none }, store1)
  | none, some data => ({ st with user := some data.email, session := some data }, store1)

/-- `initAuth` from `AuthContext.tsx` (lines 48-65), run once on mount:
`setLoading(true)`, then if `isAuthenticated()` the user is set from the
raw stored marker, then `setLoading(false)`. The returned list records
the network calls the function issues: the source body contains none (in
particular it never invokes `refreshSession` or `getSession`), so the
list is empty, and the store is never written. -/
def initAuth (store : Store) (st : AuthState) : AuthState × List NetCall :=
  let st1 := { st with loading := true }
  let st2 :=
    if isAuthenticated store then
      match getStoredUserEmail store with
      | some storedUserEmail => { st1 with user := some storedUserEmail }
      | none => st1
    else st1
  ({ st2 with loading := false }, [])

/-! ### Password-policy gate and submission handlers (`src/pages/Auth.tsx`) -/

/-- The five client-side password checks of `getPasswordRequirements`
(`Auth.tsx` lines 223-231): length at least 6, and the four regex tests
`/[a-z]/`, `/[A-Z]/`, `/[^a-zA-Z0-9]/`, `/\d/`. `Char.isLower`,
`Char.isUpper`, `Char.isDigit` and `Char.isAlphanum` are exactly the
ASCII ranges those regexes match. -/
structure PasswordRequirements where
  minLength : Bool
  hasLowercase : Bool
  hasUppercase : Bool
  hasNonAlphanumeric : Bool
  hasDigit : Bool
deriving Repr, DecidableEq

/-- `getPasswordRequirements(password)` (`Auth.tsx` lines 223-231). -/
def getPasswordRequirements (password : String) : PasswordRequirements :=
  { minLength := decide (6 ≤ password.length)
    hasLowercase := password.data.any Char.isLower
    hasUppercase := password.data.any Char.isUpper
    hasNonAlphanumeric := password.data.any fun c => !c.isAlphanum
    hasDigit := password.data.any Char.isDigit }

/-- `validatePassword(password)` (`Auth.tsx` lines 233-252): the first
failing requirement's message, in source order (length, lowercase,
uppercase, non-alphanumeric, digit), or null when all pass. The message
texts are reproduced with the quoted character ranges flattened
(`(a-z)` for the source's quoted range) to keep the strings plain. -/
def validatePassword (password : String) : Option String :=
  let requirements := getPasswordRequirements password
  if !requirements.minLength then
    some "Password must be at least 6 characters long"
  else if !requirements.hasLowercase then
    some "Password must have at least one lowercase letter (a-z)"
  else if !requirements.hasUppercase then
    some "Password must have at least one uppercase letter (A-Z)"
  else if !requirements.hasNonAlphanumeric then
    some "Password must have at least one non-alphanumeric character (e.g., !, @, #, $, %, etc.)"
  else if !requirements.hasDigit then
    some "Password must have at least one digit (0-9)"
  else
    none

/-- The per-field error formatting of `handleSignUp` (`Auth.tsx` lines
284-295): when the error carries an `errors` map, the entries are
rendered as `field: messages` lines joined by newlines, falling back to
the primary message when the rendering is empty (`errorMessages ||
error.message`). -/
def formatSignUpError (e : ApiError) : String :=
  match e.errors with
  | some errs =>
      jsOr (String.intercalate "\n"
        (errs.map fun fm => fm.1 ++ ": " ++ String.intercalate ", " fm.2)) e.message
  | none => e.message

/-- The visible outcome of a sign-up submission. -/
inductive SignUpAction
  | fillAllFields
  | invalidPassword (message : String)
  | showError (message : String)
  | success
deriving Repr, DecidableEq

/-- `handleSignUp` (`Auth.tsx` lines 256-324): empty fields and a failed
password validation each block the submission before any network call;
otherwise `signUp` runs, and on success `refreshSession` is awaited
before navigating home. The last component records the network calls
issued on each branch. -/
def handleSignUp (name email password : String) (rSignUp rRefresh : ApiResp Session)
    (store : Store) (st : AuthState) : SignUpAction × Store × AuthState × List NetCall :=
  if name = "" ∨ email = "" ∨ password = "" then
    (.fillAllFields, store, st, [])
  else
    match validatePassword password with
    | some passwordError => (.invalidPassword passwordError, store, st, [])
    | none =>
        let s := signUp name email password rSignUp store
        match s.1.error with
        | some e => (.showError (formatSignUpError e), s.2, st, [.register])
        | none =>
            let rs := refreshSession rRefresh s.2 st
            (.success, rs.2, rs.1, [.register, .pingauth])

/-- The visible outcome of a sign-in submission. -/
inductive SignInAction
  | fillAllFields
  | navigate2FA (email password : String)
  | showError (message : String)
  | success
deriving Repr, DecidableEq

/-- `handleSignIn` (`Auth.tsx` lines 326-379): empty fields block the
call; a 401 `"RequiresTwoFactor"` error navigates to the second-factor
challenge carrying the submitted email and password (no further network
call); any other error is shown; on success `refreshSession` is awaited
and `getUserInfo` queried before navigating home. -/
def handleSignIn (email password : String) (rSignIn rRefresh : ApiResp Session)
    (store : Store) (st : AuthState) : SignInAction × Store × AuthState × List NetCall :=
  if email = "" ∨ password = "" then
    (.fillAllFields, store, st, [])
  else
    let s := signIn email password rSignIn store
    match s.1.error with
    | some e =>
        if e.status = some 401 ∧ e.message = "RequiresTwoFactor" then
          (.navigate2FA email password, s.2, st, [.login])
        else
          (.showError e.message, s.2, st, [.login])
    | none =>
        let rs := refreshSession rRefresh s.2 st
        (.success, rs.2, rs.1, [.login, .pingauth, .manageInfo])

/-- The visible outcome of a second-factor verification submission. -/
inductive VerifyAction
  | invalidCode
  | invalidRecoveryCode
  | showError (message : String)
  | success
deriving Repr, DecidableEq

/-- `handleVerify` from `TwoFactorAuth.tsx` (lines 33-84): a TOTP code of
length other than 6 (resp. a blank recovery code) blocks the call; the
appropriate verify operation then runs with the original email and
password; on success `refreshSession` is awaited and the page navigates
home. -/
def handleVerify (useRecoveryCode : Bool) (email password code recoveryCode : String)
    (rVerify rRefresh : ApiResp Session) (store : Store) (st : AuthState) :
    VerifyAction × Store × AuthState × List NetCall :=
  if !useRecoveryCode ∧ code.length ≠ 6 then
    (.invalidCode, store, st, [])
  else if useRecoveryCode ∧ recoveryCode.trim = "" then
    (.invalidRecoveryCode, store, st, [])
  else
    let s :=
      if useRecoveryCode then
        verify2FARecoveryCode email password recoveryCode.trim rVerify store
      else
        verify2FALogin email password code rVerify store
    match s.1.error with
    | some e => (.showError e.message, s.2, st, [.login])
    | none =>
        let rs := refreshSession rRefresh s.2 st
        (.success, rs.2, rs.1, [.login, .pingauth])

/-! ### OAuth callback reconciliation (`src/pages/OAuthCallback.tsx`) -/

/-- The query parameters read by the callback route:
`searchParams.get` yields null for an absent parameter and the (possibly
empty) string value otherwise. -/
structure CallbackQuery where
  error : Option String
  errorDescription : Option String
  action : Option String
deriving Repr, DecidableEq

/-- JavaScript truthiness of a `searchParams.get` result: null and the
empty string are falsy. -/
def jsTruthy : Option String → Bool
  | some s => !s.isEmpty
  | none => false

/-- `searchParams.get` coerced for a `||` chain: an absent parameter
behaves as the empty string. -/
def getStr (o : Option String) : String :=
  o.getD ""

/-- The callback page status. -/
inductive CallbackStatus
  | loading
  | success
  | error
deriving Repr, DecidableEq

/-- Where the callback page navigates after finishing. -/
inductive NavTarget
  | home
  | settings
deriving Repr, DecidableEq

/-- Everything observable about one run of the callback handler. -/
structure CallbackResult where
  status : CallbackStatus
  errorMessage : String
  nav : Option NavTarget
  calls : List NetCall
  store : Store
  authState : AuthState
deriving Repr, DecidableEq

/-- `handleCallback` from `OAuthCallback.tsx` (lines 17-78): a truthy
`error` query parameter terminates the flow with an error (message from
the `errorDescription || error || ...` chain) before any network call;
otherwise `refreshSession` is awaited (its outcome `rRefresh` cannot
reject, so the `catch` branch is unreachable), the status becomes
success, and the page navigates to settings when `action === 'link'` and
home otherwise. -/
def handleCallback (q : CallbackQuery) (rRefresh : ApiResp Session) (store : Store)
    (st : AuthState) : CallbackResult :=
  if jsTruthy q.error then
    { status := .error
      errorMessage := jsOr (getStr q.errorDescription)
        (jsOr (getStr q.error) "OAuth authentication failed")
      nav := none
      calls := []
      store := store
      authState := st }
  else
    let isLinking := q.action = some "link"
    let rs := refreshSession rRefresh store st
    { status := .success
      errorMessage := ""
      nav := some (if isLinking then .settings else .home)
      calls := [.pingauth]
      store := rs.2
      authState := rs.1 }

/-! ### Helper lemmas about the stored `JSON.stringify` marker -/

/-- Every character escapes to at least one character. -/
theorem jsonEscapeChar_length_pos (c : Char) : 1 ≤ (jsonEscapeChar c).length := by
  unfold jsonEscapeChar
  split_ifs <;> simp

/-- Escaping never shortens a character list. -/
theorem length_le_length_flatMap_jsonEscapeChar (l : List Char) :
    l.length ≤ (l.flatMap jsonEscapeChar).length := by
  induction l with
  | nil => simp
  | cons c l ih =>
      have hc := jsonEscapeChar_length_pos c
      simp only [List.flatMap_cons, List.length_append, List.length_cons]
      omega

/-- The stored marker is never the empty string. -/
theorem jsonStringifyString_ne_empty (s : String) : jsonStringifyString s ≠ "" := by
  intro h
  have hdata := congrArg String.data h
  simp [jsonStringifyString] at hdata

/-- The stored marker is never the original email: `JSON.stringify` adds
the two surrounding quote characters (and never removes characters). -/
theorem jsonStringifyString_ne_self (s : String) : jsonStringifyString s ≠ s := by
  intro h
  have hdata := congrArg (fun t => t.data.length) h
  simp only [jsonStringifyString, List.length_cons, List.length_append] at hdata
  have hle := length_le_length_flatMap_jsonEscapeChar s.data
  omega

/-- Reading the marker back through `getStoredUserEmail` returns the
stored stringified value verbatim (it is non-empty, hence truthy). -/
theorem getStoredUserEmail_jsonStringify (e : String) :
    getStoredUserEmail (some (jsonStringifyString e)) = some (jsonStringifyString e) := by
  simp [getStoredUserEmail, jsonStringifyString_ne_empty e]

/-! ### The claims -/

/-- Claim C1: for every `signIn(email, password)` call that returns an
error, a 401 error whose message is the second-factor signal
`"RequiresTwoFactor"` is returned unchanged; every other 401 error has
its message replaced by the generic `"Email or password is invalid."`;
and non-401 errors pass through unchanged. -/
theorem C1_signIn_error_normalization (email password : String) (r : ApiResp Session)
    (store : Store) (e : ApiError) (h : r.error = some e) :
    ((e.status = some 401 ∧ e.message = "RequiresTwoFactor") →
        (signIn email password r store).1.error = some e) ∧
    ((e.status = some 401 ∧ e.message ≠ "RequiresTwoFactor") →
        (signIn email password r store).1.error =
          some { e with message := "Email or password is invalid." }) ∧
    (e.status ≠ some 401 → (signIn email password r store).1.error = some e) := by
  refine ⟨?_, ?_, ?_⟩ <;> intro hcond
  · have hneg : ¬(e.status = some 401 ∧ e.message ≠ "RequiresTwoFactor") :=
      fun hc => hc.2 hcond.2
    simp [signIn, h, hneg]
  · simp [signIn, h, hcond]
  · have hneg : ¬(e.status = some 401 ∧ e.message ≠ "RequiresTwoFactor") :=
      fun hc => hcond hc.1
    simp [signIn, h, hneg]

/-- Witness for C1 at a concrete second-factor-required error. -/
theorem C1_signIn_error_normalization_witness :
    (signIn "a@b.com" "pw"
      { data := none
        error := some { message := "RequiresTwoFactor", status := some 401, errors := none } }
      none).1.error =
      some { message := "RequiresTwoFactor", status := some 401, errors := none } :=
  (C1_signIn_error_normalization "a@b.com" "pw"
    { data := none
      error := some { message := "RequiresTwoFactor", status := some 401, errors := none } }
    none
    { message := "RequiresTwoFactor", status := some 401, errors := none } rfl).1 ⟨rfl, rfl⟩

/-- Claim C2: every `signOut` invocation, whatever the transport result
of the logout call, removes the cached identity marker before returning,
so `isAuthenticated()` is false afterwards; the transport error, if any,
is still reported to the caller. -/
theorem C2_signOut_always_clears_marker (r : ApiResp Unit) (store : Store) :
    (signOut r store).2 = none ∧
    isAuthenticated (signOut r store).2 = false ∧
    (signOut r store).1 = r.error :=
  ⟨rfl, rfl, rfl⟩

/-- Claim C3 (counterexample): at mount with a cached marker present, the
session store issues no network call at all — in particular no session
refresh — and keeps the stale marker-derived user; this contradicts the
claim that a background refresh call is issued on mount. -/
theorem C3_mount_issues_no_refresh :
    (initAuth (some "\"a@b.com\"") initialAuthState).2 = [] ∧
    NetCall.pingauth ∉ (initAuth (some "\"a@b.com\"") initialAuthState).2 ∧
    (initAuth (some "\"a@b.com\"") initialAuthState).1.user = some "\"a@b.com\"" := by
  refine ⟨rfl, by decide, by decide⟩

/-- Claim C3 (amended): at mount, when a cached identity marker exists
the store optimistically sets the user from the stale marker and issues
no network call (no refresh happens during mount); separately, whenever
`refreshSession` is invoked and its `getSession` call fails, the state
becomes anonymous (user and session null) and the cached marker is
cleared. -/
theorem C3_amended_mount_and_refresh_failure (store : Store) (st : AuthState)
    (r : ApiResp Session) (e : ApiError)
    (hmarker : isAuthenticated store = true) (hfail : r.error = some e) :
    ((initAuth store st).1.user = getStoredUserEmail store ∧
      (initAuth store st).1.loading = false ∧
      (initAuth store st).2 = []) ∧
    ((refreshSession r store st).1.user = none ∧
      (refreshSession r store st).1.session = none ∧
      (refreshSession r store st).2 = none) := by
  constructor
  · cases store with
    | none => simp [isAuthenticated, getStoredUserEmail] at hmarker
    | some s =>
        by_cases hs : s = ""
        · subst hs
          simp [isAuthenticated, getStoredUserEmail] at hmarker
        · simp [initAuth, isAuthenticated, getStoredUserEmail, hs]
  · simp [refreshSession, getSession, hfail]

/-- Witness for C3 (amended) at a concrete stale marker and a concrete
failing refresh. -/
theorem C3_amended_witness :
    ((initAuth (some "\"a@b.com\"") initialAuthState).1.user =
        getStoredUserEmail (some "\"a@b.com\"") ∧
      (initAuth (some "\"a@b.com\"") initialAuthState).1.loading = false ∧
      (initAuth (some "\"a@b.com\"") initialAuthState).2 = []) ∧
    ((refreshSession
        { data := none, error := some { message := "Unauthorized", status := some 401, errors := none } }
        (some "\"a@b.com\"") initialAuthState).1.user = none ∧
      (refreshSession
        { data := none, error := some { message := "Unauthorized", status := some 401, errors := none } }
        (some "\"a@b.com\"") initialAuthState).1.session = none ∧
      (refreshSession
        { data := none, error := some { message := "Unauthorized", status := some 401, errors := none } }
        (some "\"a@b.com\"") initialAuthState).2 = none) :=
  C3_amended_mount_and_refresh_failure (some "\"a@b.com\"") initialAuthState
    { data := none, error := some { message := "Unauthorized", status := some 401, errors := none } }
    { message := "Unauthorized", status := some 401, errors := none } (by decide) rfl

/-- Claim C4 (counterexample): on the input `"abc"` the lowercase check
of the password gate passes (the string consists of lowercase letters),
so it is not the case that all five checks fail on `"abc"`. -/
theorem C4_abc_lowercase_check_passes :
    (getPasswordRequirements "abc").hasLowercase = true := by decide

/-- Claim C4 (amended): the client-side password gate consists of five
checks (minimum length 6, lowercase, uppercase, digit, non-alphanumeric);
on `"abc"` the four checks other than the lowercase check fail while the
lowercase check passes; on `"Abcdef1!"` all five pass; `validatePassword`
accepts exactly the passwords passing all five checks; and a sign-up
submission whose password fails any check is blocked before any network
call is made. -/
theorem C4_amended_password_gate (name email password : String)
    (rSignUp rRefresh : ApiResp Session) (store : Store) (st : AuthState)
    (h : validatePassword password ≠ none) :
    getPasswordRequirements "abc" =
      { minLength := false, hasLowercase := true, hasUppercase := false,
        hasNonAlphanumeric := false, hasDigit := false } ∧
    getPasswordRequirements "Abcdef1!" =
      { minLength := true, hasLowercase := true, hasUppercase := true,
        hasNonAlphanumeric := true, hasDigit := true } ∧
    (∀ p : String, validatePassword p = none ↔
      ((getPasswordRequirements p).minLength = true ∧
        (getPasswordRequirements p).hasLowercase = true ∧
        (getPasswordRequirements p).hasUppercase = true ∧
        (getPasswordRequirements p).hasNonAlphanumeric = true ∧
        (getPasswordRequirements p).hasDigit = true)) ∧
    (handleSignUp name email password rSignUp rRefresh store st).2.2.2 = [] := by
  refine ⟨by decide, by decide, ?_, ?_⟩
  · intro p
    simp only [validatePassword]
    split_ifs <;> simp_all
  · unfold handleSignUp
    split
    · rfl
    · cases hv : validatePassword password with
      | some m => simp [hv]
      | none => exact absurd hv h

/-- Witness for C4 (amended) at the concrete failing password `"abc"`. -/
theorem C4_amended_witness :
    getPasswordRequirements "abc" =
      { minLength := false, hasLowercase := true, hasUppercase := false,
        hasNonAlphanumeric := false, hasDigit := false } ∧
    getPasswordRequirements "Abcdef1!" =
      { minLength := true, hasLowercase := true, hasUppercase := true,
        hasNonAlphanumeric := true, hasDigit := true } ∧
    (∀ p : String, validatePassword p = none ↔
      ((getPasswordRequirements p).minLength = true ∧
        (getPasswordRequirements p).hasLowercase = true ∧
        (getPasswordRequirements p).hasUppercase = true ∧
        (getPasswordRequirements p).hasNonAlphanumeric = true ∧
        (getPasswordRequirements p).hasDigit = true)) ∧
    (handleSignUp "n" "a@b.com" "abc"
      { data := none, error := none } { data := none, error := none }
      none initialAuthState).2.2.2 = [] :=
  C4_amended_password_gate "n" "a@b.com" "abc"
    { data := none, error := none } { data := none, error := none }
    none initialAuthState (by decide)

/-- Claim C5: `apiRequest` never throws — every fetch outcome is mapped
to a `\x7b data, error \x7d` value. A thrown `AbortError` becomes the
`"Request timeout"` transport error with status 0, any other throw a
status-0 error with the exception message (or the generic network-error
text for a non-`Error` throw); every non-2xx response is normalized to
one error shape whose message comes from the body's `title`, `detail`,
`message`, `error` fields in that priority order (a plain-string body is
used verbatim) and whose per-field validation errors come from the
body's `errors` map when non-empty; a 2xx response returns its body. -/
theorem C5_apiRequest_total_normalization (outcome : FetchOutcome) :
    (∀ isError isAbort msg, outcome = .thrown isError isAbort msg →
        apiRequest outcome =
          { data := none
            error := some
              { message :=
                  if isError = true ∧ isAbort = true then "Request timeout"
                  else if isError = true then msg else "Network error occurred"
                status := some 0
                errors := none } }) ∧
    (∀ status b, outcome = .response false status (.obj b) →
        apiRequest outcome =
          { data := none
            error := some
              { message :=
                  jsOr b.title (jsOr b.detail (jsOr b.message (jsOr b.error "An error occurred")))
                status := some status
                errors := if b.errors = [] then none else some b.errors } }) ∧
    (∀ status s, outcome = .response false status (.str s) →
        apiRequest outcome =
          { data := none
            error := some { message := s, status := some status, errors := none } }) ∧
    (∀ status body, outcome = .response true status body →
        apiRequest outcome = { data := some body, error := none }) := by
  refine ⟨?_, ?_, ?_, ?_⟩
  · rintro isError isAbort msg rfl
    cases isError <;> cases isAbort <;> simp [apiRequest]
  · rintro status b rfl
    cases hb : b.errors <;> simp [apiRequest, hb]
  · rintro status s rfl
    simp [apiRequest]
  · rintro status body rfl
    rfl

/-- Witness for C5 at a concrete aborted (timed-out) request. -/
theorem C5_apiRequest_witness :
    apiRequest (.thrown true true "aborted") =
      { data := none
        error := some { message := "Request timeout", status := some 0, errors := none } } := by
  have h :=
    (C5_apiRequest_total_normalization (.thrown true true "aborted")).1 true true "aborted" rfl
  simpa using h

/-- Claim C6: a `signIn` response carrying the second-factor signal never
establishes a session on its own — the error passes through `signIn`
unchanged with the marker untouched; the sign-in handler then navigates
to the second-factor challenge carrying the same email and password,
issuing no session refresh; the marker is only written by a subsequent
successful `verify2FALogin` / `verify2FARecoveryCode` call (which
resubmits the original email and password with the second factor), after
which the challenge handler refreshes the session and navigates home. -/
theorem C6_second_factor_signal_never_authenticates
    (email password code : String) (r rv rRefresh : ApiResp Session)
    (store : Store) (st : AuthState) (e : ApiError)
    (he : r.error = some e) (hst : e.status = some 401)
    (hmsg : e.message = "RequiresTwoFactor") (hv : rv.error = none) :
    ((signIn email password r store).1.error = some e ∧
      (signIn email password r store).2 = store) ∧
    (email ≠ "" → password ≠ "" →
      handleSignIn email password r rRefresh store st =
        (.navigate2FA email password, store, st, [.login])) ∧
    ((verify2FALogin email password code rv store).2 = some (jsonStringifyString email) ∧
      (verify2FARecoveryCode email password code rv store).2 =
        some (jsonStringifyString email)) ∧
    (code.length = 6 →
      (handleVerify false email password code "" rv rRefresh store st).1 = .success ∧
      (handleVerify false email password code "" rv rRefresh store st).2.2.2 =
        [.login, .pingauth]) := by
  have hneg : ¬(e.status = some 401 ∧ e.message ≠ "RequiresTwoFactor") :=
    fun hc => hc.2 hmsg
  refine ⟨?_, ?_, ?_, ?_⟩
  · constructor <;> simp [signIn, he, hneg]
  · intro h1 h2
    simp [handleSignIn, signIn, he, hneg, hst, hmsg, h1, h2]
  · constructor <;> simp [verify2FALogin, verify2FARecoveryCode, hv]
  · intro hcode
    constructor <;> simp [handleVerify, verify2FALogin, hv, hcode]

/-- Witness for C6 at a concrete second-factor-required sign-in followed
by a concrete successful verification. -/
theorem C6_witness :
    ((signIn "a@b.com" "pw"
        { data := none
          error := some { message := "RequiresTwoFactor", status := some 401, errors := none } }
        none).1.error =
          some { message := "RequiresTwoFactor", status := some 401, errors := none } ∧
      (signIn "a@b.com" "pw"
        { data := none
          error := some { message := "RequiresTwoFactor", status := some 401, errors := none } }
        none).2 = none) ∧
    ("a@b.com" ≠ "" → "pw" ≠ "" →
      handleSignIn "a@b.com" "pw"
        { data := none
          error := some { message := "RequiresTwoFactor", status := some 401, errors := none } }
        { data := none, error := none } none initialAuthState =
        (.navigate2FA "a@b.com" "pw", none, initialAuthState, [.login])) ∧
    ((verify2FALogin "a@b.com" "pw" "123456"
        { data := none, error := none } none).2 = some (jsonStringifyString "a@b.com") ∧
      (verify2FARecoveryCode "a@b.com" "pw" "123456"
        { data := none, error := none } none).2 = some (jsonStringifyString "a@b.com")) ∧
    (("123456" : String).length = 6 →
      (handleVerify false "a@b.com" "pw" "123456" ""
        { data := none, error := none } { data := none, error := none }
        none initialAuthState).1 = .success ∧
      (handleVerify false "a@b.com" "pw" "123456" ""
        { data := none, error := none } { data := none, error := none }
        none initialAuthState).2.2.2 = [.login, .pingauth]) :=
  C6_second_factor_signal_never_authenticates "a@b.com" "pw" "123456"
    { data := none
      error := some { message := "RequiresTwoFactor", status := some 401, errors := none } }
    { data := none, error := none } { data := none, error := none }
    none initialAuthState
    { message := "RequiresTwoFactor", status := some 401, errors := none }
    rfl rfl rfl rfl

/-- Claim C7: the cached identity marker is cleared by exactly two
operations and no others — `signOut` (which removes it unconditionally)
and a `getSession` whose request returned an error; every operation
either leaves the marker unchanged, removes it (those two cases only), or
overwrites it with a freshly stringified email. -/
theorem C7_marker_cleared_by_exactly_two_ops (op : AuthOp) (store : Store) :
    (applyOpStore op store = none → store = none ∨
        (∃ r, op = .opSignOut r) ∨
        (∃ r e, op = .opGetSession r ∧ r.error = some e)) ∧
    (∀ r, op = .opSignOut r → applyOpStore op store = none) ∧
    (∀ r e, op = .opGetSession r → r.error = some e → applyOpStore op store = none) ∧
    (applyOpStore op store = store ∨ applyOpStore op store = none ∨
        ∃ e, applyOpStore op store = some (jsonStringifyString e)) := by
  refine ⟨?_, ?_, ?_, ?_⟩
  · intro h
    cases op with
    | opSignUp name email password r =>
        cases hre : r.error with
        | some e => exact Or.inl (by simpa [applyOpStore, signUp, hre] using h)
        | none => simp [applyOpStore, signUp, hre] at h
    | opSignIn email password r =>
        cases hre : r.error with
        | some e =>
            by_cases hc : e.status = some 401 ∧ e.message ≠ "RequiresTwoFactor" <;>
              exact Or.inl (by simpa [applyOpStore, signIn, hre, hc] using h)
        | none => simp [applyOpStore, signIn, hre] at h
    | opVerify2FALogin email password code r =>
        cases hre : r.error with
        | some e => exact Or.inl (by simpa [applyOpStore, verify2FALogin, hre] using h)
        | none => simp [applyOpStore, verify2FALogin, hre] at h
    | opVerify2FARecoveryCode email password code r =>
        cases hre : r.error with
        | some e => exact Or.inl (by simpa [applyOpStore, verify2FARecoveryCode, hre] using h)
        | none => simp [applyOpStore, verify2FARecoveryCode, hre] at h
    | opSignOut r => exact Or.inr (Or.inl ⟨r, rfl⟩)
    | opSignInWithGoogle thrown =>
        cases thrown <;> exact Or.inl (by simpa [applyOpStore, signInWithGoogle] using h)
    | opGetSession r =>
        cases hre : r.error with
        | some e => exact Or.inr (Or.inr ⟨r, e, rfl, hre⟩)
        | none =>
            cases hrd : r.data with
            | some d => simp [applyOpStore, getSession, hre, hrd] at h
            | none => exact Or.inl (by simpa [applyOpStore, getSession, hre, hrd] using h)
    | opResendConfirmationEmail email r =>
        exact Or.inl (by simpa [applyOpStore, resendConfirmationEmail] using h)
    | opConfirmEmail userId code changedEmail r =>
        exact Or.inl (by simpa [applyOpStore, confirmEmail] using h)
    | opForgotPassword email r =>
        exact Or.inl (by simpa [applyOpStore, forgotPassword] using h)
    | opResetPassword email resetCode newPassword r =>
        exact Or.inl (by simpa [applyOpStore, resetPassword] using h)
    | opGetUserInfo r => exact Or.inl (by simpa [applyOpStore, getUserInfo] using h)
    | opUpdateEmail newEmail password r =>
        exact Or.inl (by simpa [applyOpStore, updateEmail] using h)
    | opChangePassword oldPassword newPassword r =>
        exact Or.inl (by simpa [applyOpStore, changePassword] using h)
    | opGet2FAInfo r => exact Or.inl (by simpa [applyOpStore, get2FAInfo] using h)
    | opEnable2FA twoFactorCode resetSharedKey r =>
        exact Or.inl (by simpa [applyOpStore, enable2FA] using h)
    | opDisable2FA r => exact Or.inl (by simpa [applyOpStore, disable2FA] using h)
    | opReset2FARecoveryCodes r =>
        exact Or.inl (by simpa [applyOpStore, reset2FARecoveryCodes] using h)
    | opForget2FAMachine r => exact Or.inl (by simpa [applyOpStore, forget2FAMachine] using h)
  · rintro r rfl
    rfl
  · rintro r e rfl hre
    simp [applyOpStore, getSession, hre]
  · cases op with
    | opSignUp name email password r =>
        cases hre : r.error with
        | some e => exact Or.inl (by simp [applyOpStore, signUp, hre])
        | none => exact Or.inr (Or.inr ⟨email, by simp [applyOpStore, signUp, hre]⟩)
    | opSignIn email password r =>
        cases hre : r.error with
        | some e =>
            by_cases hc : e.status = some 401 ∧ e.message ≠ "RequiresTwoFactor" <;>
              exact Or.inl (by simp [applyOpStore, signIn, hre, hc])
        | none => exact Or.inr (Or.inr ⟨email, by simp [applyOpStore, signIn, hre]⟩)
    | opVerify2FALogin email password code r =>
        cases hre : r.error with
        | some e => exact Or.inl (by simp [applyOpStore, verify2FALogin, hre])
        | none => exact Or.inr (Or.inr ⟨email, by simp [applyOpStore, verify2FALogin, hre]⟩)
    | opVerify2FARecoveryCode email password code r =>
        cases hre : r.error with
        | some e => exact Or.inl (by simp [applyOpStore, verify2FARecoveryCode, hre])
        | none =>
            exact Or.inr (Or.inr ⟨email, by simp [applyOpStore, verify2FARecoveryCode, hre]⟩)
    | opSignOut r => exact Or.inr (Or.inl rfl)
    | opSignInWithGoogle thrown => cases thrown <;> exact Or.inl rfl
    | opGetSession r =>
        cases hre : r.error with
        | some e => exact Or.inr (Or.inl (by simp [applyOpStore, getSession, hre]))
        | none =>
            cases hrd : r.data with
            | some d =>
                exact Or.inr (Or.inr ⟨d.email, by simp [applyOpStore, getSession, hre, hrd]⟩)
            | none => exact Or.inl (by simp [applyOpStore, getSession, hre, hrd])
    | opResendConfirmationEmail email r => exact Or.inl rfl
    | opConfirmEmail userId code changedEmail r => exact Or.inl rfl
    | opForgotPassword email r => exact Or.inl rfl
    | opResetPassword email resetCode newPassword r => exact Or.inl rfl
    | opGetUserInfo r => exact Or.inl rfl
    | opUpdateEmail newEmail password r => exact Or.inl rfl
    | opChangePassword oldPassword newPassword r => exact Or.inl rfl
    | opGet2FAInfo r => exact Or.inl rfl
    | opEnable2FA twoFactorCode resetSharedKey r => exact Or.inl rfl
    | opDisable2FA r => exact Or.inl rfl
    | opReset2FARecoveryCodes r => exact Or.inl rfl
    | opForget2FAMachine r => exact Or.inl rfl

/-- Witness for C7: a concrete `signOut` clears a concretely present
marker. -/
theorem C7_witness :
    applyOpStore (.opSignOut { data := none, error := none }) (some "\"a@b.com\"") = none :=
  (C7_marker_cleared_by_exactly_two_ops
      (.opSignOut { data := none, error := none }) (some "\"a@b.com\"")).2.1
    { data := none, error := none } rfl

/-- Claim C8 (counterexample): an `error` query parameter that is present
but empty (`?error=`) is falsy under the `if (error)` check, so the
callback does not terminate in failure — it issues the session refresh
and reaches success, contradicting the claim for that input. -/
theorem C8_empty_error_param_not_failure :
    (handleCallback { error := some "", errorDescription := none, action := none }
        { data := none, error := none } none initialAuthState).status = .success ∧
    (handleCallback { error := some "", errorDescription := none, action := none }
        { data := none, error := none } none initialAuthState).calls = [.pingauth] := by
  constructor <;> rfl

/-- Claim C8 (amended): on entry to the OAuth callback route, if an
`error` query parameter with a non-empty value is present the flow
terminates in failure without issuing a session refresh (and without
navigating); otherwise a session refresh is forced, and the destination
is the settings page exactly when `action=link` is present, the
application home otherwise. -/
theorem C8_amended_callback_branching (q : CallbackQuery) (r : ApiResp Session)
    (store : Store) (st : AuthState) :
    (jsTruthy q.error = true →
        (handleCallback q r store st).status = .error ∧
        (handleCallback q r store st).calls = [] ∧
        (handleCallback q r store st).nav = none) ∧
    (jsTruthy q.error = false →
        (handleCallback q r store st).status = .success ∧
        (handleCallback q r store st).calls = [.pingauth] ∧
        (handleCallback q r store st).nav =
          some (if q.action = some "link" then NavTarget.settings else NavTarget.home)) := by
  constructor <;> intro h <;> refine ⟨?_, ?_, ?_⟩ <;> simp [handleCallback, h]

/-- Witness for C8 (amended) at a concrete erroring callback query. -/
theorem C8_amended_witness :
    (handleCallback { error := some "access_denied", errorDescription := none, action := none }
        { data := none, error := none } none initialAuthState).status = .error ∧
    (handleCallback { error := some "access_denied", errorDescription := none, action := none }
        { data := none, error := none } none initialAuthState).calls = [] ∧
    (handleCallback { error := some "access_denied", errorDescription := none, action := none }
        { data := none, error := none } none initialAuthState).nav = none :=
  (C8_amended_callback_branching
    { error := some "access_denied", errorDescription := none, action := none }
    { data := none, error := none } none initialAuthState).1 rfl

/-- Claim C9: the identity-marker round trip is lossy — a successful
`signIn(email, password)` (likewise `signUp`, and `getSession` with the
response email) stores `JSON.stringify(email)`, the email wrapped in
quote characters, and `getStoredUserEmail` returns that stored string
without parsing it, so the value read back is the JSON serialization of
the email (surrounding quotes included), never the email itself. -/
theorem C9_marker_round_trip_lossy (name email password : String) (r : ApiResp Session)
    (store : Store) (h : r.error = none) :
    ((signIn email password r store).2 = some (jsonStringifyString email) ∧
      getStoredUserEmail (signIn email password r store).2 =
        some (jsonStringifyString email)) ∧
    (signUp name email password r store).2 = some (jsonStringifyString email) ∧
    (∀ d, r.data = some d → (getSession r store).2 = some (jsonStringifyString d.email)) ∧
    (∃ mid, jsonStringifyString email = ⟨'"' :: (mid ++ ['"'])⟩) ∧
    jsonStringifyString email ≠ email := by
  refine ⟨⟨?_, ?_⟩, ?_, ?_,
    ⟨email.data.flatMap jsonEscapeChar, rfl⟩, jsonStringifyString_ne_self email⟩
  · simp [signIn, h]
  · simp only [signIn, h]
    exact getStoredUserEmail_jsonStringify email
  · simp [signUp, h]
  · intro d hd
    simp [getSession, h, hd]

/-- Witness for C9 at a concrete successful sign-in. -/
theorem C9_witness :
    ((signIn "a@b.com" "pw"
        { data := some { email := "a@b.com", emailConfirmed := none, twoFactorEnabled := none }
          error := none } none).2 = some (jsonStringifyString "a@b.com") ∧
      getStoredUserEmail (signIn "a@b.com" "pw"
        { data := some { email := "a@b.com", emailConfirmed := none, twoFactorEnabled := none }
          error := none } none).2 = some (jsonStringifyString "a@b.com")) ∧
    (signUp "n" "a@b.com" "pw"
        { data := some { email := "a@b.com", emailConfirmed := none, twoFactorEnabled := none }
          error := none } none).2 = some (jsonStringifyString "a@b.com") ∧
    (∀ d, ({ data := some { email := "a@b.com", emailConfirmed := none, twoFactorEnabled := none },
             error := none } : ApiResp Session).data = some d →
        (getSession
          { data := some { email := "a@b.com", emailConfirmed := none, twoFactorEnabled := none }
            error := none } none).2 = some (jsonStringifyString d.email)) ∧
    (∃ mid, jsonStringifyString "a@b.com" = ⟨'"' :: (mid ++ ['"'])⟩) ∧
    jsonStringifyString "a@b.com" ≠ "a@b.com" :=
  C9_marker_round_trip_lossy "n" "a@b.com" "pw"
    { data := some { email := "a@b.com", emailConfirmed := none, twoFactorEnabled := none }
      error := none } none rfl

/-- Claim C10: an OAuth callback whose query carries no (truthy) error
parameter always reaches the success state and navigates (settings for
`action=link`, home otherwise) regardless of the refresh outcome, because
`refreshSession` absorbs every error: a failed refresh only leaves the
user and session null (and the marker cleared), it never surfaces as a
callback failure. -/
theorem C10_callback_success_despite_failed_refresh (q : CallbackQuery)
    (r : ApiResp Session) (store : Store) (st : AuthState)
    (hq : jsTruthy q.error = false) :
    (handleCallback q r store st).status = .success ∧
    (handleCallback q r store st).nav =
      some (if q.action = some "link" then NavTarget.settings else NavTarget.home) ∧
    (∀ e, r.error = some e →
      (handleCallback q r store st).authState.user = none ∧
      (handleCallback q r store st).authState.session = none ∧
      (handleCallback q r store st).store = none) := by
  refine ⟨by simp [handleCallback, hq], by simp [handleCallback, hq], ?_⟩
  intro e he
  refine ⟨?_, ?_, ?_⟩ <;> simp [handleCallback, hq, refreshSession, getSession, he]

/-- Witness for C10 at a concrete callback whose forced refresh fails. -/
theorem C10_witness :
    (handleCallback { error := none, errorDescription := none, action := some "link" }
        { data := none, error := some { message := "Unauthorized", status := some 401, errors := none } }
        (some "\"a@b.com\"") initialAuthState).status = .success ∧
    (handleCallback { error := none, errorDescription := none, action := some "link" }
        { data := none, error := some { message := "Unauthorized", status := some 401, errors := none } }
        (some "\"a@b.com\"") initialAuthState).nav =
      some (if ({ error := none, errorDescription := none, action := some "link" } : CallbackQuery).action = some "link"
        then NavTarget.settings else NavTarget.home) ∧
    (∀ e, ({ data := none,
             error := some { message := "Unauthorized", status := some 401, errors := none } } :
          ApiResp Session).error = some e →
      (handleCallback { error := none, errorDescription := none, action := some "link" }
          { data := none, error := some { message := "Unauthorized", status := some 401, errors := none } }
          (some "\"a@b.com\"") initialAuthState).authState.user = none ∧
      (handleCallback { error := none, errorDescription := none, action := some "link" }
          { data := none, error := some { message := "Unauthorized", status := some 401, errors := none } }
          (some "\"a@b.com\"") initialAuthState).authState.session = none ∧
      (handleCallback { error := none, errorDescription := none, action := some "link" }
          { data := none, error := some { message := "Unauthorized", status := some 401, errors := none } }
          (some "\"a@b.com\"") initialAuthState).store = none) :=
  C10_callback_success_despite_failed_refresh
    { error := none, errorDescription := none, action := some "link" }
    { data := none, error := some { message := "Unauthorized", status := some 401, errors := none } }
    (some "\"a@b.com\"") initialAuthState rfl

end InventoryMS
